import Mathlib

/-!
Verification of `webapp2_extras/sessions.py` (webapp-improved).

The Python module is shallowly embedded: session dictionaries become an
explicit state type over association lists (Python dicts are insertion
ordered with unique keys), exceptions become `Except PyError`, and the
external collaborators that are not part of the source file
(`webapp2_extras.config` required-value checking and
`webapp2_extras.securecookie.SecureCookieSerializer`) are modelled from the
specification at their interface boundary.
-/

/-- Python-level exceptions raised by `webapp2_extras.sessions` and its
collaborators. `configError` stands for the configuration error raised by
`webapp2_extras.config` when a `REQUIRED_VALUE` config key is read. -/
inductive PyError where
  | keyError : String → PyError
  | assertionError : String → PyError
  | configError : String → PyError
  | attributeError : PyError
  | notImplementedError : PyError
  deriving Repr, DecidableEq

/-- Values storable in a session: strings, numbers, `None`, tuples (pairs)
and lists, enough to cover session payloads and flash entries
`(value, level)`. -/
inductive Val where
  | str : String → Val
  | natV : Nat → Val
  | noneV : Val
  | pair : Val → Val → Val
  | list : List Val → Val
  deriving Repr

/-- First-match lookup in an association list, modelling Python dict lookup
(Python dicts have unique keys, so the first match is the match). -/
def PyDict.lookup {α : Type} : List (String × α) → String → Option α
  | [], _ => none
  | p :: rest, k => if p.1 = k then some p.2 else PyDict.lookup rest k

/-- `d[k] = v` on an association list: replace the first entry with key `k`
in place, or append a new entry, modelling Python dict assignment with
insertion order. -/
def PyDict.insert {α : Type} : List (String × α) → String → α → List (String × α)
  | [], k, v => [(k, v)]
  | p :: rest, k, v => if p.1 = k then (k, v) :: rest else p :: PyDict.insert rest k v

/-- `del d[k]` on an association list: drop the first entry with key `k`. -/
def PyDict.erase {α : Type} : List (String × α) → String → List (String × α)
  | [], _ => []
  | p :: rest, k => if p.1 = k then rest else p :: PyDict.erase rest k

/-- Session payloads: a Python dict from string keys to values. -/
abbrev SData := List (String × Val)

/-- `dict.update`: fold the entries of `m` into `d` left to right. -/
def SData.updateWith (d : SData) (m : SData) : SData :=
  m.foldl (fun acc p => PyDict.insert acc p.1 p.2) d

/-- `SessionDict` (`sessions.py` lines 95-137): a dict subclass tracking
modifications. The `container` back-reference carries no data relevant to the
claims and is dropped; `data` is the underlying dict contents. -/
structure SessionDict where
  data : SData
  new : Bool
  modified : Bool
  deriving Repr

/-- `SessionDict.__init__(container, data=None, new=False)`: starts with the
given data (a dict, i.e. no duplicate keys; `None` means empty) and
`modified = False`. -/
def SessionDict.init (data : Option SData) (new : Bool) : SessionDict :=
  { data := data.getD [], new := new, modified := false }

/-- `__setitem__` via `_UpdateDictMixin.calls_update`: performs the dict
assignment, then unconditionally calls `on_update`, which sets
`modified = True`. -/
def SessionDict.setitem (d : SessionDict) (k : String) (v : Val) : SessionDict :=
  { d with data := PyDict.insert d.data k v, modified := true }

/-- `__delitem__` via `calls_update`: `dict.__delitem__` raises `KeyError`
for an absent key (before `on_update` runs, leaving the state unchanged);
otherwise the key is removed and `on_update` sets `modified = True`. -/
def SessionDict.delitem (d : SessionDict) (k : String) : Except PyError SessionDict :=
  if (PyDict.lookup d.data k).isSome then
    Except.ok { d with data := PyDict.erase d.data k, modified := true }
  else
    Except.error (PyError.keyError k)

/-- `clear` via `calls_update`: empties the dict and sets `modified = True`. -/
def SessionDict.clear (d : SessionDict) : SessionDict :=
  { d with data := [], modified := true }

/-- `update` via `calls_update`: merges `m` into the dict; `on_update` runs
unconditionally, so `modified = True` even for an empty `m`. -/
def SessionDict.update (d : SessionDict) (m : SData) : SessionDict :=
  { d with data := SData.updateWith d.data m, modified := true }

/-- `setdefault` via `calls_update`: returns the existing value, or inserts
and returns the given one; in both cases `on_update` runs, so
`modified = True`. -/
def SessionDict.setdefault (d : SessionDict) (k : String) (v : Val) : Val × SessionDict :=
  match PyDict.lookup d.data k with
  | some w => (w, { d with modified := true })
  | none => (v, { d with data := PyDict.insert d.data k v, modified := true })

/-- `SessionDict.pop(key, *args)` (lines 106-112): if the key is present,
delegate to the mixin's `pop`, which removes it and calls `on_update`
(`modified = True`); if absent and a default was supplied, return the default
without touching the dict or the flag; if absent with no default, raise
`KeyError`. -/
def SessionDict.pop (d : SessionDict) (k : String) (dflt : Option Val) :
    Except PyError (Val × SessionDict) :=
  match PyDict.lookup d.data k with
  | some v => Except.ok (v, { d with data := PyDict.erase d.data k, modified := true })
  | none =>
    match dflt with
    | some v => Except.ok (v, d)
    | none => Except.error (PyError.keyError k)

/-- `popitem` via `calls_update`: removes and returns the last entry
(raising `KeyError` on an empty dict, before `on_update` runs). -/
def SessionDict.popitem (d : SessionDict) : Except PyError ((String × Val) × SessionDict) :=
  match d.data.getLast? with
  | some p => Except.ok (p, { d with data := d.data.dropLast, modified := true })
  | none => Except.error (PyError.keyError "dictionary is empty")

/-- `get_flashes(key)` (lines 117-125): `return self.pop(key, [])`. -/
def SessionDict.get_flashes (d : SessionDict) (key : String) : Val × SessionDict :=
  match d.pop key (some (Val.list [])) with
  | Except.ok r => r
  | Except.error _ => (Val.list [], d)

/-- `add_flash(value, level, key)` (lines 127-137):
`self.setdefault(key, []).append((value, level))`. `setdefault` always marks
the container modified; the in-place `append` then extends the list stored
under `key`. If the stored value is not a list, `append` raises
`AttributeError` after `setdefault` has already set `modified = True`, so the
error state is the post-`setdefault` dict. -/
def SessionDict.add_flash (d : SessionDict) (value : Val) (level : Val) (key : String) :
    SessionDict × Option PyError :=
  let r := d.setdefault key (Val.list [])
  match r.1 with
  | Val.list l =>
    ({ r.2 with data := PyDict.insert r.2.data key (Val.list (l ++ [Val.pair value level])) },
     none)
  | _ => (r.2, some PyError.attributeError)

/-- The alphabet of operations handler code can perform on a `SessionDict`
during its lifetime (reads do not change the state and are omitted). -/
inductive DictOp where
  | setitem : String → Val → DictOp
  | delitem : String → DictOp
  | clear : DictOp
  | update : SData → DictOp
  | setdefault : String → Val → DictOp
  | pop : String → Option Val → DictOp
  | popitem : DictOp
  | get_flashes : String → DictOp
  | add_flash : Val → Val → String → DictOp

/-- The state of the container after one operation; an operation that raises
leaves the container in the state Python leaves it in (unchanged, except
`add_flash`, whose `setdefault` has already run when `append` raises). -/
def SessionDict.applyOp (d : SessionDict) : DictOp → SessionDict
  | DictOp.setitem k v => d.setitem k v
  | DictOp.delitem k =>
    match d.delitem k with
    | Except.ok d2 => d2
    | Except.error _ => d
  | DictOp.clear => d.clear
  | DictOp.update m => d.update m
  | DictOp.setdefault k v => (d.setdefault k v).2
  | DictOp.pop k dflt =>
    match d.pop k dflt with
    | Except.ok r => r.2
    | Except.error _ => d
  | DictOp.popitem =>
    match d.popitem with
    | Except.ok r => r.2
    | Except.error _ => d
  | DictOp.get_flashes key => (d.get_flashes key).2
  | DictOp.add_flash v l key => (d.add_flash v l key).1

/-- Cookie attributes (`default_config['cookie_args']`, lines 58-64). -/
structure CookieArgs where
  max_age : Option Nat
  domain : Option String
  path : String
  secure : Option Bool
  httponly : Bool
  deriving Repr, DecidableEq

/-- A `**kwargs` update for cookie attributes: each field is present
(`some`) or omitted (`none`). -/
structure CookieKwargs where
  max_age : Option (Option Nat)
  domain : Option (Option String)
  path : Option String
  secure : Option (Option Bool)
  httponly : Option Bool
  deriving Repr, DecidableEq

/-- `session_args.update(kwargs)`: present kwargs override, absent ones keep
the current value. -/
def CookieArgs.updateWith (a : CookieArgs) (kw : CookieKwargs) : CookieArgs :=
  { max_age := kw.max_age.getD a.max_age
    domain := kw.domain.getD a.domain
    path := kw.path.getD a.path
    secure := kw.secure.getD a.secure
    httponly := kw.httponly.getD a.httponly }

/-- The `secret_key` config slot: either the `REQUIRED_VALUE` sentinel
(unset) or an actual key. -/
inductive SecretKeyConfig where
  | required : SecretKeyConfig
  | key : String → SecretKeyConfig
  deriving Repr, DecidableEq

/-- The module configuration for `webapp2_extras.sessions`
(`default_config`, lines 54-65). -/
structure ModuleConfig where
  secret_key : SecretKeyConfig
  cookie_name : String
  session_max_age : Option Nat
  cookie_args : CookieArgs
  deriving Repr, DecidableEq

/-- `default_config['cookie_args']` (lines 58-64). -/
def default_cookie_args : CookieArgs :=
  { max_age := none, domain := none, path := "/", secure := none, httponly := false }

/-- `default_config` (lines 54-65). -/
def default_config : ModuleConfig :=
  { secret_key := SecretKeyConfig.required
    cookie_name := "session"
    session_max_age := none
    cookie_args := default_cookie_args }

/-- The `max_age` argument of `get_session` / `get_secure_cookie`:
`default` is the `webapp2_config.DEFAULT_VALUE` sentinel (argument omitted),
`explicit v` a value passed by the caller, where `v = none` is Python `None`
("no limit"). -/
inductive MaxAge where
  | default : MaxAge
  | explicit : Option Nat → MaxAge
  deriving Repr, DecidableEq

/-- Modelled from the spec: the behaviour of
`webapp2_extras.securecookie.SecureCookieSerializer` (not under `src/`).
The claims depend only on when serialize/deserialize are invoked and with
which arguments, never on the wire format, so the two methods are abstract
functions of the secret key, the cookie name, the payload/token and (for
deserialize) the effective max age. -/
structure SecureCookieModel where
  serialize : String → String → SData → String
  deserialize : String → String → String → Option Nat → Option SData

/-- A response object: the list of cookies set on it, in order
(`response.set_cookie(name, value, **kwargs)`). -/
structure Response where
  cookies : List (String × String × CookieArgs)
  deriving Repr

/-- `response.set_cookie` (collaborator contract): records the cookie. -/
def Response.set_cookie (r : Response) (name value : String) (kwargs : CookieArgs) : Response :=
  { cookies := r.cookies ++ [(name, value, kwargs)] }

/-- Which factory class a tracked container was built from:
`SecureCookieSessionFactory` (lines 165-193) or
`CustomBackendSessionFactory` (lines 196-222, whose `_get_by_sid` is not
overridden in this module). -/
inductive FactoryKind where
  | secureCookie : FactoryKind
  | custom : FactoryKind
  deriving Repr, DecidableEq

/-- `BaseSessionFactory` instance state (lines 140-162): the session name,
a mutable copy of the store's configured cookie args, the memoized
`SessionDict` (`None` until `get_session` runs), and the concrete class. The
`session_store` back-reference is passed explicitly where needed. -/
structure BaseSessionFactory where
  name : String
  session_args : CookieArgs
  session : Option SessionDict
  kind : FactoryKind
  deriving Repr

/-- `SessionStore` state (lines 264-274): the module config fetched from
`request.app.config`, the request's inbound cookies, and the tracked
sessions dict. -/
structure SessionStore where
  config : ModuleConfig
  request_cookies : List (String × String)
  sessions : List (String × BaseSessionFactory)
  deriving Repr

/-- `BaseSessionFactory.__init__` (lines 152-156): `session_args` starts as
a copy of `session_store.config['cookie_args']`, `session` as `None`. -/
def BaseSessionFactory.init (name : String) (store : SessionStore) (kind : FactoryKind) :
    BaseSessionFactory :=
  { name := name, session_args := store.config.cookie_args, session := none, kind := kind }

/-- `SessionStore.serializer` (cached property, lines 276-279): constructs
`SecureCookieSerializer(self.config['secret_key'])` on first access. The
serializer is identified by its secret key. Modelled from the spec:
`webapp2_extras.config` (not under `src/`) raises a configuration error when
a key whose configured value is `REQUIRED_VALUE` is read, which is what
`self.config['secret_key']` does for an unset secret key. -/
def SessionStore.serializer (s : SessionStore) : Except PyError String :=
  match s.config.secret_key with
  | SecretKeyConfig.required =>
    Except.error (PyError.configError
      "Module webapp2_extras.sessions requires the config key secret_key to be set.")
  | SecretKeyConfig.key k => Except.ok k

/-- `if max_age is DEFAULT_VALUE: max_age = self.config['session_max_age']`
(lines 312-313 and 331-332): the sentinel picks up the store default; an
explicitly passed value (including an explicit `None`) is used as-is. -/
def resolveMaxAge : MaxAge → ModuleConfig → Option Nat
  | MaxAge.default, cfg => cfg.session_max_age
  | MaxAge.explicit v, _ => v

/-- `name = name or self.config['cookie_name']` (line 310): `None` (and the
falsy empty string) fall back to the configured cookie name. -/
def resolveName : Option String → ModuleConfig → String
  | none, cfg => cfg.cookie_name
  | some n, cfg => if n = "" then cfg.cookie_name else n

/-- Body of `SessionStore.get_secure_cookie` (lines 334-336) after max-age
resolution: look the cookie up in the request (a missing or falsy-empty
value yields `None` without touching the serializer), otherwise deserialize
it with the effective max age. The serializer access can raise the
configuration error for an unset secret key. -/
def SessionStore.get_secure_cookie_with (sc : SecureCookieModel) (s : SessionStore)
    (name : String) (max_age : Option Nat) : Except PyError (Option SData) :=
  match PyDict.lookup s.request_cookies name with
  | none => Except.ok none
  | some v =>
    if v = "" then Except.ok none
    else do
      let key ← s.serializer
      Except.ok (sc.deserialize key name v max_age)

/-- `SessionStore.get_secure_cookie` (lines 320-336). -/
def SessionStore.get_secure_cookie (sc : SecureCookieModel) (s : SessionStore)
    (name : String) (max_age : MaxAge) : Except PyError (Option SData) :=
  s.get_secure_cookie_with sc name (resolveMaxAge max_age s.config)

/-- `SessionStore.save_secure_cookie` (lines 365-367): serialize the value
(accessing the serializer, which can raise for an unset secret key) and set
the cookie on the response. -/
def SessionStore.save_secure_cookie (sc : SecureCookieModel) (s : SessionStore)
    (response : Response) (name : String) (value : SData) (kwargs : CookieArgs) :
    Except PyError Response := do
  let key ← s.serializer
  Except.ok (response.set_cookie name (sc.serialize key name value) kwargs)

/-- `get_session` of the concrete factories (lines 179-186 and 205-212):
memoized on `self.session`. The secure-cookie factory builds a `SessionDict`
from the deserialized cookie with `new = (data is None)`; the custom-backend
factory reads the cookie and then calls `self._get_by_sid`, which this
module does not implement, raising `NotImplementedError`. -/
def BaseSessionFactory.get_session (sc : SecureCookieModel) (f : BaseSessionFactory)
    (store : SessionStore) (max_age : MaxAge) :
    Except PyError (SessionDict × BaseSessionFactory) :=
  match f.session with
  | some sd => Except.ok (sd, f)
  | none =>
    match f.kind with
    | FactoryKind.secureCookie => do
      let data ← store.get_secure_cookie sc f.name max_age
      let sd := SessionDict.init data data.isNone
      Except.ok (sd, { f with session := some sd })
    | FactoryKind.custom => do
      let _data ← store.get_secure_cookie sc f.name max_age
      Except.error PyError.notImplementedError

/-- `save_session` (lines 188-193 for the secure-cookie factory; the
custom-backend factory inherits `BaseSessionFactory.save_session`, line 162,
which raises `NotImplementedError`). The secure-cookie factory returns
without writing when `not self.session or not self.session.modified`:
`self.session` is falsy both when it is `None` and when it is an empty dict.
Otherwise it serializes `dict(self.session)` and sets the cookie with
`self.session_args`. -/
def BaseSessionFactory.save_session (sc : SecureCookieModel) (f : BaseSessionFactory)
    (store : SessionStore) (response : Response) : Except PyError Response :=
  match f.kind with
  | FactoryKind.custom => Except.error PyError.notImplementedError
  | FactoryKind.secureCookie =>
    match f.session with
    | none => Except.ok response
    | some sd =>
      if sd.data.isEmpty || !sd.modified then Except.ok response
      else store.save_secure_cookie sc response f.name sd.data f.session_args

/-- `SessionStore._get_session_container` (lines 283-287): returns the
tracked container for `name`, creating it with the supplied factory only
when `name` is not yet tracked (a later factory argument for a tracked name
is ignored). -/
def SessionStore._get_session_container (s : SessionStore) (name : String)
    (factory : FactoryKind) : BaseSessionFactory × SessionStore :=
  match PyDict.lookup s.sessions name with
  | some c => (c, s)
  | none =>
    let c := BaseSessionFactory.init name s factory
    (c, { s with sessions := PyDict.insert s.sessions name c })

/-- Modelling device for Python aliasing: the container returned by
`_get_session_container` is the very object stored in `self.sessions`, so a
method call that mutates it is visible in the store; here the mutated
container is written back under its name. -/
def SessionStore.putContainer (s : SessionStore) (name : String) (c : BaseSessionFactory) :
    SessionStore :=
  { s with sessions := PyDict.insert s.sessions name c }

/-- Body of `SessionStore.get_session` (lines 289-316) after the max-age
resolution of lines 312-313: resolve the name, get or create the container,
and delegate to the container's `get_session` with the resolved max age. -/
def SessionStore.get_session_resolved (sc : SecureCookieModel) (s : SessionStore)
    (name : Option String) (max_age : Option Nat) (factory : FactoryKind) :
    Except PyError (SessionDict × SessionStore) :=
  let n := resolveName name s.config
  let cs := s._get_session_container n factory
  do
    let r ← cs.1.get_session sc cs.2 (MaxAge.explicit max_age)
    Except.ok (r.1, cs.2.putContainer n r.2)

/-- `SessionStore.get_session` (lines 289-316). -/
def SessionStore.get_session (sc : SecureCookieModel) (s : SessionStore)
    (name : Option String) (max_age : MaxAge) (factory : FactoryKind) :
    Except PyError (SessionDict × SessionStore) :=
  s.get_session_resolved sc name (resolveMaxAge max_age s.config) factory

/-- The `value` argument of `set_secure_cookie`: a dict, or some other
Python value (which fails the `isinstance(value, dict)` assertion). -/
inductive PyArg where
  | dict : SData → PyArg
  | nonDict : Val → PyArg

/-- `SessionStore.set_secure_cookie` (lines 338-352): asserts that `value`
is a dict before touching any state; then gets or creates the cookie-backed
container for `name`, merges `value` into its session and updates its
`session_args` with the kwargs. -/
def SessionStore.set_secure_cookie (sc : SecureCookieModel) (s : SessionStore)
    (name : String) (value : PyArg) (kwargs : CookieKwargs) : Except PyError SessionStore :=
  match value with
  | PyArg.nonDict _ =>
    Except.error (PyError.assertionError "Secure cookie values must be a dict.")
  | PyArg.dict m =>
    let cs := s._get_session_container name FactoryKind.secureCookie
    do
      let r ← cs.1.get_session sc cs.2 MaxAge.default
      let c :=
        { r.2 with
          session := some (r.1.update m)
          session_args := r.2.session_args.updateWith kwargs }
      Except.ok (cs.2.putContainer name c)

/-- `SessionStore.save_sessions` (lines 356-363): calls `save_session` on
every tracked container, threading the response. -/
def SessionStore.save_sessions (sc : SecureCookieModel) (s : SessionStore)
    (response : Response) : Except PyError Response :=
  s.sessions.foldlM (fun r p => p.2.save_session sc s r) response

/-- Modelling device for Python aliasing: handler code mutates the
`SessionDict` it obtained from `get_session` in place; the tracked container
holds the same object, so the store sees the mutated session. -/
def SessionStore.mutateTracked (s : SessionStore) (name : String)
    (g : SessionDict → SessionDict) : SessionStore :=
  match PyDict.lookup s.sessions name with
  | some c => s.putContainer name { c with session := c.session.map g }
  | none => s

/-- A request object at the collaborator contract of section 6: inbound
cookies as a name-to-value mapping, the app configuration for this module,
and the per-request registry used by `get_store` / `set_store`. -/
structure Request where
  app_config : ModuleConfig
  cookies : List (String × String)
  registry : List (String × SessionStore)

/-- The attribute assignments of `SessionStore.__init__` (lines 264-274):
the module config is fetched from `request.app.config` as a whole (no
individual key is read, so an unset `secret_key` raises nothing here) and
the tracked-sessions dict starts empty. -/
def SessionStore.ofRequest (request : Request) : SessionStore :=
  { config := request.app_config, request_cookies := request.cookies, sessions := [] }

/-- `SessionStore.__init__` (lines 264-274), typed in `Except` to record
which exceptions construction can raise: it performs only the assignments of
`SessionStore.ofRequest`, so it always succeeds. -/
def SessionStore.init (request : Request) : Except PyError SessionStore :=
  Except.ok (SessionStore.ofRequest request)

/-- `get_store` (lines 377-399): return the store registered under `key`,
or build one with `factory`, register and return it. `registry.get(key)`
returns `None` when absent, and a `SessionStore` instance is always truthy,
so the `if not store` test means "not yet registered". -/
def get_store (factory : Request → SessionStore) (key : String) (request : Request) :
    SessionStore × Request :=
  match PyDict.lookup request.registry key with
  | some store => (store, request)
  | none =>
    let store := factory request
    (store, { request with registry := PyDict.insert request.registry key store })

/-- `set_store` (lines 402-415): registers the store under `key`. -/
def set_store (store : SessionStore) (key : String) (request : Request) : Request :=
  { request with registry := PyDict.insert request.registry key store }

/-- `_registry_key` (line 374). -/
def _registry_key : String := "webapp2_extras.sessions.SessionStore"

theorem PyDict.lookup_insert {α : Type} (l : List (String × α)) (k : String) (v : α) :
    PyDict.lookup (PyDict.insert l k v) k = some v := by
  induction l with
  | nil => simp [PyDict.insert, PyDict.lookup]
  | cons p rest ih =>
    by_cases h : p.1 = k
    · simp [PyDict.insert, h, PyDict.lookup]
    · simp [PyDict.insert, h, PyDict.lookup, ih]

theorem PyDict.insert_self {α : Type} (l : List (String × α)) (k : String) (v : α)
    (h : PyDict.lookup l k = some v) : PyDict.insert l k v = l := by
  induction l with
  | nil => simp [PyDict.lookup] at h
  | cons p rest ih =>
    obtain ⟨pk, pv⟩ := p
    by_cases hk : pk = k
    · simp [PyDict.lookup, hk] at h
      simp [PyDict.insert, hk, h]
    · simp [PyDict.lookup, hk] at h
      simp [PyDict.insert, hk, ih h]

theorem PyDict.insert_insert {α : Type} (l : List (String × α)) (k : String) (v w : α) :
    PyDict.insert (PyDict.insert l k v) k w = PyDict.insert l k w := by
  induction l with
  | nil => simp [PyDict.insert]
  | cons p rest ih =>
    obtain ⟨pk, pv⟩ := p
    by_cases hk : pk = k
    · simp [PyDict.insert, hk]
    · simp [PyDict.insert, hk, ih]

theorem SessionDict.applyOp_modified_mono (d : SessionDict) (op : DictOp)
    (h : d.modified = true) : (d.applyOp op).modified = true := by
  cases op with
  | setitem k v => simp [SessionDict.applyOp, SessionDict.setitem]
  | delitem k =>
    by_cases hc : (PyDict.lookup d.data k).isSome
    · simp [SessionDict.applyOp, SessionDict.delitem, hc]
    · simp [SessionDict.applyOp, SessionDict.delitem, hc, h]
  | clear => simp [SessionDict.applyOp, SessionDict.clear]
  | update m => simp [SessionDict.applyOp, SessionDict.update]
  | setdefault k v =>
    rcases hl : PyDict.lookup d.data k with _ | w <;>
      simp [SessionDict.applyOp, SessionDict.setdefault, hl]
  | pop k dflt =>
    rcases hl : PyDict.lookup d.data k with _ | w
    · rcases dflt with _ | v <;> simp [SessionDict.applyOp, SessionDict.pop, hl, h]
    · simp [SessionDict.applyOp, SessionDict.pop, hl]
  | popitem =>
    rcases hg : d.data.getLast? with _ | p <;>
      simp [SessionDict.applyOp, SessionDict.popitem, hg, h]
  | get_flashes key =>
    rcases hl : PyDict.lookup d.data key with _ | w <;>
      simp [SessionDict.applyOp, SessionDict.get_flashes, SessionDict.pop, hl, h]
  | add_flash v l key =>
    rcases hl : PyDict.lookup d.data key with _ | w
    · simp [SessionDict.applyOp, SessionDict.add_flash, SessionDict.setdefault, hl]
    · cases w <;> simp [SessionDict.applyOp, SessionDict.add_flash, SessionDict.setdefault, hl]

theorem SessionDict.foldl_applyOp_modified (d : SessionDict) (ops : List DictOp)
    (h : d.modified = true) : (ops.foldl SessionDict.applyOp d).modified = true := by
  induction ops generalizing d with
  | nil => exact h
  | cons op rest ih => exact ih _ (d.applyOp_modified_mono op h)

theorem SessionStore.serializer_ok (s : SessionStore) (k : String)
    (h : s.config.secret_key = SecretKeyConfig.key k) : s.serializer = Except.ok k := by
  simp [SessionStore.serializer, h]

theorem SessionStore.get_secure_cookie_with_ok (sc : SecureCookieModel) (s : SessionStore)
    (name : String) (ma : Option Nat) (k : String)
    (h : s.config.secret_key = SecretKeyConfig.key k) :
    ∃ o, s.get_secure_cookie_with sc name ma = Except.ok o := by
  rcases hl : PyDict.lookup s.request_cookies name with _ | v
  · exact ⟨none, by simp [SessionStore.get_secure_cookie_with, hl]⟩
  · by_cases hv : v = ""
    · exact ⟨none, by simp [SessionStore.get_secure_cookie_with, hl, hv]⟩
    · exact ⟨sc.deserialize k name v ma, by
        simp [SessionStore.get_secure_cookie_with, hl, hv, SessionStore.serializer_ok s k h,
          Bind.bind, Except.bind]⟩

theorem SessionStore.get_secure_cookie_ok (sc : SecureCookieModel) (s : SessionStore)
    (name : String) (a : MaxAge) (k : String)
    (h : s.config.secret_key = SecretKeyConfig.key k) :
    ∃ o, s.get_secure_cookie sc name a = Except.ok o :=
  s.get_secure_cookie_with_ok sc name (resolveMaxAge a s.config) k h

/-- C2: a freshly constructed SessionDict has `modified = false`; after any
of `__setitem__`, successful `__delitem__`, `clear`, `update`, `setdefault`,
or `pop` of a present key, `modified = true`; `pop` of an absent key with no
default raises `KeyError` and leaves both the mapping and the flag
unchanged; and over any sequence of lifetime operations the flag never
reverts from `true` to `false`. -/
theorem session_dict_modified_tracking :
    (∀ (data : Option SData) (new : Bool), (SessionDict.init data new).modified = false) ∧
    (∀ (d : SessionDict) (k : String) (v : Val), (d.setitem k v).modified = true) ∧
    (∀ (d d2 : SessionDict) (k : String), d.delitem k = Except.ok d2 → d2.modified = true) ∧
    (∀ d : SessionDict, d.clear.modified = true) ∧
    (∀ (d : SessionDict) (m : SData), (d.update m).modified = true) ∧
    (∀ (d : SessionDict) (k : String) (v : Val), (d.setdefault k v).2.modified = true) ∧
    (∀ (d : SessionDict) (k : String) (dflt : Option Val),
      (PyDict.lookup d.data k).isSome = true →
      ∃ v d2, d.pop k dflt = Except.ok (v, d2) ∧ d2.modified = true) ∧
    (∀ (d : SessionDict) (k : String), PyDict.lookup d.data k = none →
      d.pop k none = Except.error (PyError.keyError k) ∧
      d.applyOp (DictOp.pop k none) = d) ∧
    (∀ (d : SessionDict) (ops : List DictOp),
      d.modified = true → (ops.foldl SessionDict.applyOp d).modified = true) := by
  refine ⟨?_, ?_, ?_, ?_, ?_, ?_, ?_, ?_, ?_⟩
  · intro data new; simp [SessionDict.init]
  · intro d k v; simp [SessionDict.setitem]
  · intro d d2 k h
    by_cases hc : (PyDict.lookup d.data k).isSome
    · simp [SessionDict.delitem, hc] at h
      subst h; rfl
    · simp [SessionDict.delitem, hc] at h
  · intro d; simp [SessionDict.clear]
  · intro d m; simp [SessionDict.update]
  · intro d k v
    rcases hl : PyDict.lookup d.data k with _ | w <;> simp [SessionDict.setdefault, hl]
  · intro d k dflt hs
    rcases hl : PyDict.lookup d.data k with _ | v
    · rw [hl] at hs; simp at hs
    · exact ⟨v, { d with data := PyDict.erase d.data k, modified := true },
        by simp [SessionDict.pop, hl], rfl⟩
  · intro d k hl
    exact ⟨by simp [SessionDict.pop, hl], by simp [SessionDict.applyOp, SessionDict.pop, hl]⟩
  · exact fun d ops h => d.foldl_applyOp_modified ops h

theorem session_dict_modified_tracking_witness :
    (∃ v d2, (SessionDict.init (some [("a", Val.natV 1)]) false).pop "a" none =
        Except.ok (v, d2) ∧ d2.modified = true) ∧
    ((SessionDict.init none false).pop "x" none = Except.error (PyError.keyError "x") ∧
      (SessionDict.init none false).applyOp (DictOp.pop "x" none) = SessionDict.init none false) ∧
    (([DictOp.clear, DictOp.update []].foldl SessionDict.applyOp
        ((SessionDict.init none false).setitem "a" (Val.natV 1))).modified = true) :=
  ⟨session_dict_modified_tracking.2.2.2.2.2.2.1 _ "a" none rfl,
   session_dict_modified_tracking.2.2.2.2.2.2.2.1 _ "x" rfl,
   session_dict_modified_tracking.2.2.2.2.2.2.2.2 _ _ rfl⟩

/-- C3 as stated is false on the code: `pop` with a supplied default on an
absent key returns the default but does NOT mark the container modified
(`SessionDict.pop` returns `args[0]` without calling the mixin, so
`on_update` never runs). Concretely, on a fresh empty container,
`pop("a", 0)` returns `0` and the container is returned unchanged with
`modified = false`. -/
theorem pop_absent_with_default_counterexample :
    (SessionDict.init none false).pop "a" (some (Val.natV 0)) =
      Except.ok (Val.natV 0, SessionDict.init none false) ∧
    (SessionDict.init none false).modified = false :=
  ⟨rfl, rfl⟩

/-- C3 amended: for every SessionDict and every key absent from it,
`pop(key, default)` with a default supplied returns the default and leaves
the container entirely unchanged — in particular it does NOT mark the
container modified. -/
theorem pop_absent_with_default_spec (d : SessionDict) (k : String) (v : Val)
    (h : PyDict.lookup d.data k = none) :
    d.pop k (some v) = Except.ok (v, d) := by
  simp [SessionDict.pop, h]

theorem pop_absent_with_default_spec_witness :
    (SessionDict.init none false).pop "a" (some (Val.natV 7)) =
      Except.ok (Val.natV 7, SessionDict.init none false) :=
  pop_absent_with_default_spec _ "a" _ rfl

/-- C10: the modified flag tracks operations, not content change — each of
`__setitem__`, successful `__delitem__`, `clear`, `update`, `setdefault`
sets `modified = true` on every invocation, including the content-preserving
ones: setting a key to its current value, `update` with an empty mapping,
`clear` on an already-empty container, and `setdefault` on a present key all
leave the mapping's contents unchanged yet set the flag. -/
theorem modified_tracks_operations :
    (∀ (d : SessionDict) (k : String) (v : Val), PyDict.lookup d.data k = some v →
      (d.setitem k v).data = d.data ∧ (d.setitem k v).modified = true) ∧
    (∀ d : SessionDict, (d.update []).data = d.data ∧ (d.update []).modified = true) ∧
    (∀ d : SessionDict, d.data = [] → d.clear.data = d.data ∧ d.clear.modified = true) ∧
    (∀ (d : SessionDict) (k : String) (w v : Val), PyDict.lookup d.data k = some w →
      (d.setdefault k v).2.data = d.data ∧ (d.setdefault k v).2.modified = true) ∧
    (∀ (d : SessionDict) (k : String) (v : Val), (d.setitem k v).modified = true) ∧
    (∀ (d d2 : SessionDict) (k : String), d.delitem k = Except.ok d2 → d2.modified = true) ∧
    (∀ (d : SessionDict) (m : SData), (d.update m).modified = true) ∧
    (∀ d : SessionDict, d.clear.modified = true) ∧
    (∀ (d : SessionDict) (k : String) (v : Val), (d.setdefault k v).2.modified = true) := by
  refine ⟨?_, ?_, ?_, ?_, ?_, ?_, ?_, ?_, ?_⟩
  · intro d k v h
    exact ⟨by simp [SessionDict.setitem, PyDict.insert_self d.data k v h], rfl⟩
  · intro d; exact ⟨rfl, rfl⟩
  · intro d h; exact ⟨by simp [SessionDict.clear, h], rfl⟩
  · intro d k w v h; simp [SessionDict.setdefault, h]
  · intro d k v; simp [SessionDict.setitem]
  · intro d d2 k h
    by_cases hc : (PyDict.lookup d.data k).isSome
    · simp [SessionDict.delitem, hc] at h
      subst h; rfl
    · simp [SessionDict.delitem, hc] at h
  · intro d m; simp [SessionDict.update]
  · intro d; simp [SessionDict.clear]
  · intro d k v
    rcases hl : PyDict.lookup d.data k with _ | w <;> simp [SessionDict.setdefault, hl]

theorem modified_tracks_operations_witness :
    (((SessionDict.init (some [("a", Val.natV 1)]) false).setitem "a" (Val.natV 1)).data =
        [("a", Val.natV 1)] ∧
      ((SessionDict.init (some [("a", Val.natV 1)]) false).setitem "a" (Val.natV 1)).modified =
        true) ∧
    (((SessionDict.init none false).clear).data = (SessionDict.init none false).data ∧
      ((SessionDict.init none false).clear).modified = true) ∧
    (((SessionDict.init (some [("a", Val.natV 1)]) false).setdefault "a" (Val.natV 2)).2.data =
        [("a", Val.natV 1)] ∧
      ((SessionDict.init (some [("a", Val.natV 1)]) false).setdefault "a"
        (Val.natV 2)).2.modified = true) :=
  ⟨modified_tracks_operations.1 _ "a" _ rfl,
   modified_tracks_operations.2.2.1 _ rfl,
   modified_tracks_operations.2.2.2.1 _ "a" _ _ rfl⟩

/-- C5: `add_flash(value, level, key)` appends `(value, level)` to the list
stored under `key` (creating the list if absent) and marks the container
modified; `get_flashes(key)` returns and removes the value stored under
`key`, marking the container modified, and returns the empty list with the
container entirely unchanged when `key` is absent. -/
theorem flash_messages_spec :
    (∀ (d : SessionDict) (v l : Val) (key : String) (L : List Val),
      PyDict.lookup d.data key = some (Val.list L) →
      d.add_flash v l key =
        ({ d with
            data := PyDict.insert d.data key (Val.list (L ++ [Val.pair v l]))
            modified := true }, none)) ∧
    (∀ (d : SessionDict) (v l : Val) (key : String),
      PyDict.lookup d.data key = none →
      d.add_flash v l key =
        ({ d with
            data := PyDict.insert d.data key (Val.list [Val.pair v l])
            modified := true }, none)) ∧
    (∀ (d : SessionDict) (key : String),
      PyDict.lookup d.data key = none → d.get_flashes key = (Val.list [], d)) ∧
    (∀ (d : SessionDict) (key : String) (w : Val),
      PyDict.lookup d.data key = some w →
      d.get_flashes key =
        (w, { d with data := PyDict.erase d.data key, modified := true })) := by
  refine ⟨?_, ?_, ?_, ?_⟩
  · intro d v l key L h
    simp [SessionDict.add_flash, SessionDict.setdefault, h]
  · intro d v l key h
    simp [SessionDict.add_flash, SessionDict.setdefault, h, PyDict.insert_insert]
  · intro d key h
    simp [SessionDict.get_flashes, SessionDict.pop, h]
  · intro d key w h
    simp [SessionDict.get_flashes, SessionDict.pop, h]

theorem flash_messages_spec_witness :
    ((SessionDict.init none true).add_flash (Val.str "saved!") (Val.str "info") "_flash" =
      ({ data := [("_flash", Val.list [Val.pair (Val.str "saved!") (Val.str "info")])],
         new := true, modified := true }, none)) ∧
    ((SessionDict.mk [("_flash", Val.list [Val.pair (Val.str "saved!") (Val.str "info")])]
        true true).get_flashes "_flash" =
      (Val.list [Val.pair (Val.str "saved!") (Val.str "info")],
       { data := [], new := true, modified := true })) ∧
    ((SessionDict.mk [] true true).get_flashes "_flash" =
      (Val.list [], SessionDict.mk [] true true)) :=
  ⟨flash_messages_spec.2.1 _ _ _ _ rfl,
   flash_messages_spec.2.2.2 _ _ _ rfl,
   flash_messages_spec.2.2.1 _ _ rfl⟩

/-- A concrete secure-cookie model for witnesses and counterexamples. -/
def sampleSC : SecureCookieModel :=
  { serialize := fun _key name _value => String.append "tok-" name
    deserialize := fun _key _name v _ma =>
      if v = "blob" then some [("u", Val.str "alice")] else none }

/-- A concrete well-formed module configuration for witnesses. -/
def sampleConfig : ModuleConfig :=
  { secret_key := SecretKeyConfig.key "s3cr3t"
    cookie_name := "session"
    session_max_age := some 3600
    cookie_args := default_cookie_args }

/-- A concrete store with one inbound cookie and no tracked sessions. -/
def sampleStore : SessionStore :=
  { config := sampleConfig
    request_cookies := [("session", "blob")]
    sessions := [] }

/-- C1 as stated is false on the code: a tracked secure-cookie container
whose session exists, is empty, and has `modified = True` is NOT written —
`if not self.session` is true for an existing-but-empty `SessionDict`
because a dict subclass is falsy when empty, so `save_session` returns
without calling `save_secure_cookie`: the response still has no cookies. -/
theorem save_session_empty_modified_counterexample :
    BaseSessionFactory.save_session sampleSC
      { name := "session", session_args := default_cookie_args,
        session := some { data := [], new := false, modified := true },
        kind := FactoryKind.secureCookie }
      sampleStore { cookies := [] } = Except.ok { cookies := [] } ∧
    ({ data := [], new := false, modified := true } : SessionDict).modified = true :=
  ⟨rfl, rfl⟩

/-- C1 amended: for a secure-cookie factory, `save_session` performs no
cookie write when the container was never created, when its modified flag is
false, or when its mapping is currently empty (the code's
`not self.session` truthiness test also holds for an existing empty dict);
when the container exists, is non-empty and modified, and the secret key is
configured, it serializes the container's current data and sets it as a
cookie on the response using the factory's `session_args`. -/
theorem save_session_noop_or_write (sc : SecureCookieModel) (f : BaseSessionFactory)
    (s : SessionStore) (r : Response) (key : String)
    (hkind : f.kind = FactoryKind.secureCookie) :
    (f.session = none → f.save_session sc s r = Except.ok r) ∧
    (∀ sd, f.session = some sd → sd.modified = false → f.save_session sc s r = Except.ok r) ∧
    (∀ sd, f.session = some sd → sd.data = [] → f.save_session sc s r = Except.ok r) ∧
    (∀ sd, f.session = some sd → sd.data ≠ [] → sd.modified = true →
      s.serializer = Except.ok key →
      f.save_session sc s r =
        Except.ok (r.set_cookie f.name (sc.serialize key f.name sd.data) f.session_args)) := by
  refine ⟨?_, ?_, ?_, ?_⟩
  · intro h; simp [BaseSessionFactory.save_session, hkind, h]
  · intro sd h hm; simp [BaseSessionFactory.save_session, hkind, h, hm]
  · intro sd h hd; simp [BaseSessionFactory.save_session, hkind, h, hd]
  · intro sd h hd hm hser
    simp [BaseSessionFactory.save_session, hkind, h, hm, hd,
      SessionStore.save_secure_cookie, hser, Bind.bind, Except.bind]

theorem save_session_noop_or_write_witness :
    BaseSessionFactory.save_session sampleSC
      { name := "session", session_args := default_cookie_args,
        session := some { data := [("u", Val.str "alice")], new := false, modified := true },
        kind := FactoryKind.secureCookie }
      sampleStore { cookies := [] } =
      Except.ok { cookies := [("session", "tok-session", default_cookie_args)] } :=
  (save_session_noop_or_write sampleSC
      { name := "session", session_args := default_cookie_args,
        session := some { data := [("u", Val.str "alice")], new := false, modified := true },
        kind := FactoryKind.secureCookie }
      sampleStore { cookies := [] } "s3cr3t" rfl).2.2.2
    { data := [("u", Val.str "alice")], new := false, modified := true }
    rfl (by simp) rfl rfl

/-- C7 as stated is false on the code: with an unset (`REQUIRED_VALUE`)
secret key, `SessionStore.__init__` succeeds — it only assigns attributes
and fetches the module config dict as a whole — and the configuration error
surfaces only when the lazily constructed serializer is first accessed. -/
theorem store_init_missing_key_counterexample :
    SessionStore.init { app_config := default_config, cookies := [], registry := [] } =
      Except.ok { config := default_config, request_cookies := [], sessions := [] } ∧
    SessionStore.serializer { config := default_config, request_cookies := [], sessions := [] } =
      Except.error (PyError.configError
        "Module webapp2_extras.sessions requires the config key secret_key to be set.") :=
  ⟨rfl, rfl⟩

/-- C7 amended: constructing a `SessionStore` always succeeds, even when the
configured secret key is missing; the fatal configuration error is deferred
to the first use of the signer — the first access to the `serializer`
property, e.g. when a present non-empty cookie must be deserialized. -/
theorem store_init_defers_config_error (request : Request) (sc : SecureCookieModel) :
    (SessionStore.init request = Except.ok (SessionStore.ofRequest request)) ∧
    (request.app_config.secret_key = SecretKeyConfig.required →
      (SessionStore.ofRequest request).serializer =
        Except.error (PyError.configError
          "Module webapp2_extras.sessions requires the config key secret_key to be set.")) ∧
    (request.app_config.secret_key = SecretKeyConfig.required →
      ∀ (name v : String) (a : MaxAge), PyDict.lookup request.cookies name = some v → v ≠ "" →
        (SessionStore.ofRequest request).get_secure_cookie sc name a =
          Except.error (PyError.configError
            "Module webapp2_extras.sessions requires the config key secret_key to be set.")) := by
  refine ⟨rfl, ?_, ?_⟩
  · intro h; simp [SessionStore.serializer, SessionStore.ofRequest, h]
  · intro h name v a hl hv
    simp [SessionStore.get_secure_cookie, SessionStore.get_secure_cookie_with,
      SessionStore.ofRequest, hl, hv, SessionStore.serializer, h, Bind.bind, Except.bind]

theorem store_init_defers_config_error_witness :
    ((SessionStore.ofRequest
        { app_config := default_config, cookies := [("session", "blob")], registry := [] }).serializer =
      Except.error (PyError.configError
        "Module webapp2_extras.sessions requires the config key secret_key to be set.")) ∧
    (SessionStore.get_secure_cookie sampleSC
        (SessionStore.ofRequest
          { app_config := default_config, cookies := [("session", "blob")], registry := [] })
        "session" MaxAge.default =
      Except.error (PyError.configError
        "Module webapp2_extras.sessions requires the config key secret_key to be set.")) :=
  ⟨(store_init_defers_config_error
      { app_config := default_config, cookies := [("session", "blob")], registry := [] }
      sampleSC).2.1 rfl,
   (store_init_defers_config_error
      { app_config := default_config, cookies := [("session", "blob")], registry := [] }
      sampleSC).2.2 rfl "session" "blob" MaxAge.default rfl (by decide)⟩

/-- C8: the effective max-age of `get_secure_cookie` and `get_session` has
three-way semantics — an explicitly passed value (including an explicit
`None`, "no limit") is used as-is, and only the `DEFAULT_VALUE` sentinel
(argument omitted) picks up the store's configured `session_max_age`. -/
theorem max_age_three_way_semantics :
    (∀ (cfg : ModuleConfig) (v : Option Nat), resolveMaxAge (MaxAge.explicit v) cfg = v) ∧
    (∀ cfg : ModuleConfig, resolveMaxAge (MaxAge.explicit none) cfg = none) ∧
    (∀ cfg : ModuleConfig, resolveMaxAge MaxAge.default cfg = cfg.session_max_age) ∧
    (∀ (sc : SecureCookieModel) (s : SessionStore) (name : String) (v : Option Nat),
      s.get_secure_cookie sc name (MaxAge.explicit v) = s.get_secure_cookie_with sc name v) ∧
    (∀ (sc : SecureCookieModel) (s : SessionStore) (name : String),
      s.get_secure_cookie sc name MaxAge.default =
        s.get_secure_cookie_with sc name s.config.session_max_age) ∧
    (∀ (sc : SecureCookieModel) (s : SessionStore) (name : Option String) (v : Option Nat)
      (fk : FactoryKind),
      s.get_session sc name (MaxAge.explicit v) fk = s.get_session_resolved sc name v fk) ∧
    (∀ (sc : SecureCookieModel) (s : SessionStore) (name : Option String) (fk : FactoryKind),
      s.get_session sc name MaxAge.default fk =
        s.get_session_resolved sc name s.config.session_max_age fk) :=
  ⟨fun _ _ => rfl, fun _ => rfl, fun _ => rfl, fun _ _ _ _ => rfl, fun _ _ _ => rfl,
   fun _ _ _ _ _ => rfl, fun _ _ _ _ => rfl⟩

/-- C9: `get_store` is idempotent within one request — a first call on a
request whose registry lacks `key` constructs the store via `factory`,
registers it under `key` and returns it; any second call with the same key
(whatever its factory) returns the identical registered store and leaves
the registry unchanged; and after `set_store`, `get_store` returns exactly
the store that was set. -/
theorem get_store_idempotent (factory : Request → SessionStore) (key : String) (r : Request)
    (hfresh : PyDict.lookup r.registry key = none) :
    ∃ s1 r1, get_store factory key r = (s1, r1) ∧ s1 = factory r ∧
      PyDict.lookup r1.registry key = some s1 ∧
      (∀ g : Request → SessionStore, get_store g key r1 = (s1, r1)) ∧
      (∀ (st : SessionStore) (g : Request → SessionStore),
        get_store g key (set_store st key r) = (st, set_store st key r)) := by
  refine ⟨factory r, { r with registry := PyDict.insert r.registry key (factory r) },
    ?_, rfl, ?_, ?_, ?_⟩
  · simp [get_store, hfresh]
  · simp [PyDict.lookup_insert]
  · intro g; simp [get_store, PyDict.lookup_insert]
  · intro st g; simp [get_store, set_store, PyDict.lookup_insert]

theorem get_store_idempotent_witness :
    ∃ s1 r1, get_store SessionStore.ofRequest _registry_key
        { app_config := default_config, cookies := [], registry := [] } = (s1, r1) ∧
      s1 = SessionStore.ofRequest { app_config := default_config, cookies := [], registry := [] } ∧
      PyDict.lookup r1.registry _registry_key = some s1 ∧
      (∀ g, get_store g _registry_key r1 = (s1, r1)) ∧
      (∀ st g, get_store g _registry_key (set_store st _registry_key
          { app_config := default_config, cookies := [], registry := [] }) =
        (st, set_store st _registry_key
          { app_config := default_config, cookies := [], registry := [] })) :=
  get_store_idempotent SessionStore.ofRequest _registry_key
    { app_config := default_config, cookies := [], registry := [] } rfl

theorem SessionStore.get_session_fresh (sc : SecureCookieModel) (s : SessionStore)
    (name : Option String) (ma : Option Nat) (o : Option SData)
    (hfresh : PyDict.lookup s.sessions (resolveName name s.config) = none)
    (ho : s.get_secure_cookie sc (resolveName name s.config) (MaxAge.explicit ma) =
      Except.ok o) :
    s.get_session_resolved sc name ma FactoryKind.secureCookie =
      Except.ok (SessionDict.init o o.isNone,
        SessionStore.mk s.config s.request_cookies
          (PyDict.insert s.sessions (resolveName name s.config)
            (BaseSessionFactory.mk (resolveName name s.config) s.config.cookie_args
              (some (SessionDict.init o o.isNone)) FactoryKind.secureCookie))) := by
  have ho' : SessionStore.get_secure_cookie sc
      (SessionStore.mk s.config s.request_cookies
        (PyDict.insert s.sessions (resolveName name s.config)
          (BaseSessionFactory.mk (resolveName name s.config) s.config.cookie_args
            none FactoryKind.secureCookie)))
      (resolveName name s.config) (MaxAge.explicit ma) = Except.ok o := ho
  simp [SessionStore.get_session_resolved, SessionStore._get_session_container, hfresh,
    BaseSessionFactory.get_session, BaseSessionFactory.init, ho', SessionStore.putContainer,
    PyDict.insert_insert, Bind.bind, Except.bind]

theorem SessionStore.get_session_tracked (sc : SecureCookieModel) (s : SessionStore)
    (name : Option String) (ma : Option Nat) (fk : FactoryKind) (c : BaseSessionFactory)
    (d : SessionDict)
    (h : PyDict.lookup s.sessions (resolveName name s.config) = some c)
    (hsess : c.session = some d) :
    s.get_session_resolved sc name ma fk = Except.ok (d, s) := by
  have hput : PyDict.insert s.sessions (resolveName name s.config) c = s.sessions :=
    PyDict.insert_self _ _ _ h
  simp [SessionStore.get_session_resolved, SessionStore._get_session_container, h,
    BaseSessionFactory.get_session, hsess, SessionStore.putContainer, hput,
    Bind.bind, Except.bind]

theorem SessionStore.get_session_mutated (sc : SecureCookieModel) (s : SessionStore)
    (name : Option String) (ma : Option Nat) (fk : FactoryKind) (c : BaseSessionFactory)
    (d : SessionDict) (g : SessionDict → SessionDict)
    (h : PyDict.lookup s.sessions (resolveName name s.config) = some c)
    (hsess : c.session = some d) :
    (s.mutateTracked (resolveName name s.config) g).get_session_resolved sc name ma fk =
      Except.ok (g d, s.mutateTracked (resolveName name s.config) g) := by
  have hm : s.mutateTracked (resolveName name s.config) g =
      SessionStore.mk s.config s.request_cookies
        (PyDict.insert s.sessions (resolveName name s.config)
          (BaseSessionFactory.mk c.name c.session_args (some (g d)) c.kind)) := by
    simp [SessionStore.mutateTracked, h, hsess, SessionStore.putContainer]
  rw [hm]
  exact SessionStore.get_session_tracked sc _ name ma fk _ (g d)
    (PyDict.lookup_insert _ _ _) rfl

/-- C4: within one `SessionStore`, the first `get_session` call for a name
creates and permanently binds one container via the supplied factory; every
subsequent call with the same name returns that same container's session —
regardless of the factory or max-age argument passed later — and mutations
made through the returned session are visible through later calls. -/
theorem get_session_per_name_singleton (sc : SecureCookieModel) (s : SessionStore)
    (name : Option String) (a1 a2 : MaxAge) (k2 : FactoryKind) (key : String)
    (g : SessionDict → SessionDict)
    (hfresh : PyDict.lookup s.sessions (resolveName name s.config) = none)
    (hkey : s.config.secret_key = SecretKeyConfig.key key) :
    ∃ d1 s1, s.get_session sc name a1 FactoryKind.secureCookie = Except.ok (d1, s1) ∧
      (∃ c, PyDict.lookup s1.sessions (resolveName name s.config) = some c ∧
        c.session = some d1 ∧ c.kind = FactoryKind.secureCookie) ∧
      s1.get_session sc name a2 k2 = Except.ok (d1, s1) ∧
      (s1.mutateTracked (resolveName name s.config) g).get_session sc name a2 k2 =
        Except.ok (g d1, s1.mutateTracked (resolveName name s.config) g) := by
  obtain ⟨o, ho⟩ := s.get_secure_cookie_ok sc (resolveName name s.config)
    (MaxAge.explicit (resolveMaxAge a1 s.config)) key hkey
  refine ⟨SessionDict.init o o.isNone,
    SessionStore.mk s.config s.request_cookies
      (PyDict.insert s.sessions (resolveName name s.config)
        (BaseSessionFactory.mk (resolveName name s.config) s.config.cookie_args
          (some (SessionDict.init o o.isNone)) FactoryKind.secureCookie)),
    s.get_session_fresh sc name (resolveMaxAge a1 s.config) o hfresh ho,
    ⟨BaseSessionFactory.mk (resolveName name s.config) s.config.cookie_args
        (some (SessionDict.init o o.isNone)) FactoryKind.secureCookie,
      PyDict.lookup_insert _ _ _, rfl, rfl⟩,
    ?_, ?_⟩
  · exact SessionStore.get_session_tracked sc _ name _ k2 _ _
      (PyDict.lookup_insert _ _ _) rfl
  · exact SessionStore.get_session_mutated sc _ name _ k2 _ _ g
      (PyDict.lookup_insert _ _ _) rfl

theorem get_session_per_name_singleton_witness :
    ∃ d1 s1, SessionStore.get_session sampleSC sampleStore none MaxAge.default
        FactoryKind.secureCookie = Except.ok (d1, s1) ∧
      (∃ c, PyDict.lookup s1.sessions (resolveName none sampleStore.config) = some c ∧
        c.session = some d1 ∧ c.kind = FactoryKind.secureCookie) ∧
      SessionStore.get_session sampleSC s1 none (MaxAge.explicit none) FactoryKind.custom =
        Except.ok (d1, s1) ∧
      SessionStore.get_session sampleSC
          (s1.mutateTracked (resolveName none sampleStore.config)
            (fun d => d.setitem "x" (Val.natV 1)))
          none (MaxAge.explicit none) FactoryKind.custom =
        Except.ok ((fun d => d.setitem "x" (Val.natV 1)) d1,
          s1.mutateTracked (resolveName none sampleStore.config)
            (fun d => d.setitem "x" (Val.natV 1))) :=
  get_session_per_name_singleton sampleSC sampleStore none MaxAge.default
    (MaxAge.explicit none) FactoryKind.custom "s3cr3t"
    (fun d => d.setitem "x" (Val.natV 1)) rfl rfl

/-- C6: `set_secure_cookie(name, value, **kwargs)` raises the
invalid-argument (assertion) error, before touching any state, exactly when
`value` is not a dict; when `value` is a dict it forces a cookie-backed
session named `name` to exist — creating it when no session of that name is
tracked yet — merges `value` into that session's data (marking it
modified), and updates the container's cookie attributes with the kwargs. -/
theorem set_secure_cookie_spec (sc : SecureCookieModel) (s : SessionStore)
    (name : String) (kwargs : CookieKwargs) (key : String)
    (hfresh : PyDict.lookup s.sessions name = none)
    (hkey : s.config.secret_key = SecretKeyConfig.key key) :
    (∀ v : Val, s.set_secure_cookie sc name (PyArg.nonDict v) kwargs =
      Except.error (PyError.assertionError "Secure cookie values must be a dict.")) ∧
    (∀ m : SData, ∃ (s2 : SessionStore) (c : BaseSessionFactory) (d0 : Option SData),
      s.set_secure_cookie sc name (PyArg.dict m) kwargs = Except.ok s2 ∧
      s.get_secure_cookie sc name MaxAge.default = Except.ok d0 ∧
      PyDict.lookup s2.sessions name = some c ∧
      c.kind = FactoryKind.secureCookie ∧
      c.session = some ((SessionDict.init d0 d0.isNone).update m) ∧
      c.session_args = CookieArgs.updateWith s.config.cookie_args kwargs) := by
  constructor
  · intro v; rfl
  · intro m
    obtain ⟨o, ho⟩ := s.get_secure_cookie_ok sc name MaxAge.default key hkey
    have ho' : SessionStore.get_secure_cookie sc
        (SessionStore.mk s.config s.request_cookies
          (PyDict.insert s.sessions name
            (BaseSessionFactory.mk name s.config.cookie_args none FactoryKind.secureCookie)))
        name MaxAge.default = Except.ok o := ho
    refine ⟨SessionStore.mk s.config s.request_cookies
        (PyDict.insert s.sessions name
          (BaseSessionFactory.mk name (CookieArgs.updateWith s.config.cookie_args kwargs)
            (some ((SessionDict.init o o.isNone).update m)) FactoryKind.secureCookie)),
      BaseSessionFactory.mk name (CookieArgs.updateWith s.config.cookie_args kwargs)
        (some ((SessionDict.init o o.isNone).update m)) FactoryKind.secureCookie,
      o, ?_, ho, PyDict.lookup_insert _ _ _, rfl, rfl, rfl⟩
    simp [SessionStore.set_secure_cookie, SessionStore._get_session_container, hfresh,
      BaseSessionFactory.get_session, BaseSessionFactory.init, ho', SessionStore.putContainer,
      PyDict.insert_insert, Bind.bind, Except.bind]

/-- Concrete kwargs for the C6 witness. -/
def sampleKwargs : CookieKwargs :=
  { max_age := some (some 60), domain := none, path := none, secure := none,
    httponly := some true }

theorem set_secure_cookie_spec_witness :
    (∀ v : Val, SessionStore.set_secure_cookie sampleSC sampleStore "session"
        (PyArg.nonDict v) sampleKwargs =
      Except.error (PyError.assertionError "Secure cookie values must be a dict.")) ∧
    (∀ m : SData, ∃ (s2 : SessionStore) (c : BaseSessionFactory) (d0 : Option SData),
      SessionStore.set_secure_cookie sampleSC sampleStore "session" (PyArg.dict m)
        sampleKwargs = Except.ok s2 ∧
      SessionStore.get_secure_cookie sampleSC sampleStore "session" MaxAge.default =
        Except.ok d0 ∧
      PyDict.lookup s2.sessions "session" = some c ∧
      c.kind = FactoryKind.secureCookie ∧
      c.session = some ((SessionDict.init d0 d0.isNone).update m) ∧
      c.session_args = CookieArgs.updateWith sampleStore.config.cookie_args sampleKwargs) :=
  set_secure_cookie_spec sampleSC sampleStore "session" sampleKwargs "s3cr3t" rfl rfl
